import Mathlib

/-!
Shallow embedding of the Algorand-side x402 payment protocol code of
`a2a-x402-typescript`, covering:

* `x402_a2a/core/algorand-facilitator.ts` — `verifyAlgorandPayment`,
  `settleAlgorandPayment`;
* `x402_a2a/core/algorand-wallet.ts` — `processAlgorandPayment`,
  `verifyAlgorandSignature` (concatenated into the same source file);
* `x402_a2a/core/merchant.ts` — `processPriceToAtomicAmount`,
  `createPaymentRequirements` (concatenated into the same source file);
* `client-agent/src/wallet/AlgorandWallet.ts` — `AlgorandLocalWallet.signPayment`.

Modelling conventions:

* JavaScript numbers are idealised as exact decimals (`JSNumber`:
  mantissa over a power of ten); `NaN` is modelled by `Option`
  (`none` = `NaN`).  The prices and amounts exercised here are small
  enough that double rounding never changes `Math.floor` results (the
  quotients involved are rationals with denominator 9 or powers of ten,
  never within an ulp of an integer without being one).
* `parseInt` / `parseFloat` / `BigInt` are modelled for decimal inputs
  (sign + digit sequences); hex prefixes, exponents, `Infinity` and
  leading whitespace are outside the fragment the repository exercises.
* The chain SDK (`algosdk`) and RPC node are abstracted into a `ChainEnv`
  record: an encoder for signed transactions, a decoder (which can fail,
  modelling exceptions thrown by `algosdk.decodeSignedTransaction`), the
  node status call, raw-transaction submission and confirmation waiting.
* A decoded signed transaction is a record of the optional alias fields
  the TypeScript code probes (`to`/`receiver`, `assetAmount`/`amount`/
  `aamt`, `assetIndex`/`xaid`, `lastRound`/`lastValid`/`lv`), with
  JavaScript truthiness (`undefined` and `0` are falsy) modelled
  explicitly.  A successfully decoded envelope always carries a sender
  address (`algosdk.encodeAddress` of the sender key).
-/

deriving instance DecidableEq for Except

namespace X402

/-- Numeric value of a list of decimal digit characters. -/
def digitsVal (l : List Char) : Nat :=
  l.foldl (fun a c => a * 10 + (c.toNat - 48)) 0

/-- JS `parseInt(s)` (decimal): optional sign, then the longest digit
run; `none` models `NaN`. -/
def parseIntJS (s : String) : Option Int :=
  let cs := s.toList
  let sign : Int := match cs with | '-' :: _ => -1 | _ => 1
  let rest : List Char := match cs with
    | '-' :: r => r
    | '+' :: r => r
    | _ => cs
  let ds := rest.takeWhile Char.isDigit
  if ds.isEmpty then none
  else some (sign * (digitsVal ds : Int))

/-- A finite JS number as an exact decimal: the value
`mant / 10 ^ exp10`. -/
structure JSNumber where
  mant : Int
  exp10 : Nat
deriving DecidableEq, Repr

/-- JS `parseFloat(s)` (decimal): optional sign, digit run, optional dot
and fractional digit run; `none` models `NaN`. -/
def parseFloatJS (s : String) : Option JSNumber :=
  let cs := s.toList
  let sign : Int := match cs with | '-' :: _ => -1 | _ => 1
  let rest : List Char := match cs with
    | '-' :: r => r
    | '+' :: r => r
    | _ => cs
  let intPart := rest.takeWhile Char.isDigit
  let rest2 := rest.dropWhile Char.isDigit
  let fracPart : List Char := match rest2 with
    | '.' :: r => r.takeWhile Char.isDigit
    | _ => []
  if intPart.isEmpty ∧ fracPart.isEmpty then none
  else some
    { mant := sign * ((digitsVal intPart * 10 ^ fracPart.length
        + digitsVal fracPart : Nat) : Int),
      exp10 := fracPart.length }

/-- JS `BigInt(s)`: the whole string must be an optionally signed digit
sequence; the empty string gives `0n`; `none` models the thrown
`SyntaxError`. -/
def bigIntJS (s : String) : Option Int :=
  let cs := s.toList
  if cs.isEmpty then some 0
  else
    let sign : Int := match cs with | '-' :: _ => -1 | _ => 1
    let rest : List Char := match cs with
      | '-' :: r => r
      | '+' :: r => r
      | _ => cs
    let ds := rest.takeWhile Char.isDigit
    let tail := rest.dropWhile Char.isDigit
    if ds.isEmpty ∨ ¬ tail.isEmpty then none
    else some (sign * (digitsVal ds : Int))

/-- `Math.ceil(n / 4.5)` for a natural `n` (exact: `⌈2n/9⌉`). -/
def ceilDiv45 (n : Nat) : Nat := (2 * n + 8) / 9

/-- JS `a || b` on optional numbers: `undefined` and `0` are falsy. -/
def jsOrNat (a b : Option Nat) : Option Nat :=
  match a with
  | some n => if n = 0 then b else some n
  | none => b

/-- Decimal rendering of a JS number that is either an integer or `NaN`
(`toString` on the result of `Math.floor`). -/
def optIntToString (o : Option Int) : String :=
  match o with
  | none => "NaN"
  | some i => toString i

/-- Does the second character list start with the first?  (Structural
replacement for `String.startsWith`, which the kernel cannot reduce.) -/
def charListStarts : List Char → List Char → Bool
  | [], _ => true
  | _ :: _, [] => false
  | a :: as, b :: bs => decide (a = b) && charListStarts as bs

/-- Does the character list contain the given (nonempty) pattern? -/
def charListHas (needle : List Char) : List Char → Bool
  | [] => needle.isEmpty
  | c :: rest => charListStarts needle (c :: rest) || charListHas needle rest

/-- JS `s.startsWith(p)`. -/
def strStarts (s p : String) : Bool :=
  charListStarts p.toList s.toList

/-- JS `hay.includes(needle)`. -/
def containsSub (hay needle : String) : Bool :=
  charListHas needle.toList hay.toList

/-- `isAlgorandNetwork` from `algorand-utils.ts`:
`network.startsWith("algorand-")`. -/
def isAlgorandNetwork (network : String) : Bool :=
  strStarts network "algorand-"

/-- The `eip712Domain` side data produced by the requirements builder. -/
structure Eip712Domain where
  name : String
  version : String
deriving DecidableEq, Repr

/-- `PaymentRequirements` from `types/state.ts` (`outputSchema` is opaque
and never read by the code modelled here; it is omitted). -/
structure PaymentRequirements where
  scheme : String
  network : String
  asset : String
  payTo : String
  maxAmountRequired : String
  resource : String
  description : String
  mimeType : String
  maxTimeoutSeconds : Nat
  extra : Option Eip712Domain
deriving DecidableEq, Repr

/-- `AlgorandAuthorization` from `types/state.ts`.  `assetId` is a JS
number produced by `parseInt`, hence possibly `NaN` (`none`).  The fields
`from` and `to` are renamed `fromAddress` and `toAddress` (Lean
keywords). -/
structure AlgorandAuthorization where
  fromAddress : String
  toAddress : String
  amount : String
  assetId : Option Int
  validRounds : Nat
  note : Option String
deriving DecidableEq, Repr

/-- `AlgorandPaymentPayload` from `types/state.ts`.  `authorization` is
optional because the facilitator receives the inner payload through an
unchecked cast and explicitly tests for its absence. -/
structure AlgorandPaymentPayload where
  signature : String
  authorization : Option AlgorandAuthorization
  txnId : String
deriving DecidableEq, Repr

/-- `PaymentPayload` (Algorand variant) from `types/state.ts`. -/
structure PaymentPayload where
  x402Version : Nat
  scheme : String
  network : String
  payload : AlgorandPaymentPayload
deriving DecidableEq, Repr

/-- `VerifyResponse` from `types/state.ts`. -/
structure VerifyResponse where
  isValid : Bool
  payer : Option String
  invalidReason : Option String
deriving DecidableEq, Repr

/-- `SettleResponse` from `types/state.ts`. -/
structure SettleResponse where
  success : Bool
  transaction : Option String
  network : String
  payer : Option String
  errorReason : Option String
deriving DecidableEq, Repr

/-- Suggested transaction parameters fetched from the node (only the
fields read by the modelled code). -/
structure SuggestedParams where
  firstRound : Nat
  lastRound : Nat
deriving DecidableEq, Repr

/-- An asset-transfer transaction as constructed by
`algosdk.makeAssetTransferTxnWithSuggestedParamsFromObject`. -/
structure Txn where
  sender : String
  receiver : String
  amount : Nat
  assetIndex : Nat
  firstValid : Nat
  lastValid : Nat
  note : Option String
deriving DecidableEq, Repr

/-- A decoded signed-transaction envelope, as the record of alias fields
the TypeScript verifier probes.  `none` models an absent (`undefined`)
field. -/
structure DecodedTxn where
  sender : String
  toField : Option String
  receiver : Option String
  assetAmount : Option Nat
  amountField : Option Nat
  aamt : Option Nat
  assetIndex : Option Nat
  xaid : Option Nat
  lastRound : Option Nat
  lastValid : Option Nat
  lv : Option Nat
deriving DecidableEq, Repr

/-- `AlgorandAccount` from `algorand-wallet.ts` (the secret key only
feeds the abstract signer, so the address identifies the account). -/
structure AlgorandAccount where
  address : String
deriving DecidableEq, Repr

/-- The chain adapter and SDK environment: everything the modelled code
reaches through `algosdk` or the network.  `Except.error` carries the
message of the corresponding thrown exception. -/
structure ChainEnv where
  suggestedParams : SuggestedParams
  signTxn : Txn → String
  txID : Txn → String
  decode : String → Except String DecodedTxn
  status : Except String Nat
  send : String → Except String String
  confirm : String → Nat → Except String Unit
  ensureOptIn : Nat → Bool

/-- `algosdk.makeAssetTransferTxnWithSuggestedParamsFromObject`:
first/last valid rounds are copied from the suggested parameters. -/
def mkAssetTransferTxn (sender receiver : String) (amount assetIndex : Nat)
    (sp : SuggestedParams) (note : Option String) : Txn :=
  { sender := sender, receiver := receiver, amount := amount,
    assetIndex := assetIndex, firstValid := sp.firstRound,
    lastValid := sp.lastRound, note := note }

/-- The decoded form of a signed asset-transfer transaction (the canonical
alias population: `receiver`, `assetAmount`, `assetIndex`, `lastValid`). -/
def toDecoded (t : Txn) : DecodedTxn :=
  { sender := t.sender, toField := none, receiver := some t.receiver,
    assetAmount := some t.amount, amountField := none, aamt := none,
    assetIndex := some t.assetIndex, xaid := none,
    lastRound := none, lastValid := some t.lastValid, lv := none }

/-- `txn.assetAmount || txn.amount || txn.aamt || 0`. -/
def jsAmount (d : DecodedTxn) : Nat :=
  (jsOrNat (jsOrNat d.assetAmount d.amountField) d.aamt).getD 0

/-- `txn.assetIndex || txn.xaid` (may be `undefined`). -/
def jsAssetId (d : DecodedTxn) : Option Nat :=
  jsOrNat d.assetIndex d.xaid

/-- `txn.assetIndex || txn.xaid || 0`. -/
def jsAssetId0 (d : DecodedTxn) : Nat :=
  (jsOrNat d.assetIndex d.xaid).getD 0

/-- `Number(txn.lastRound || txn.lastValid || txn.lv)`; `none` is `NaN`. -/
def jsLastValid (d : DecodedTxn) : Option Nat :=
  jsOrNat (jsOrNat d.lastRound d.lastValid) d.lv

/-- `txn.to ? encodeAddress(...) : (txn.receiver ? encodeAddress(...) : "")`
from `verifyAlgorandPayment` (an empty receiver string is falsy). -/
def jsToAddr (d : DecodedTxn) : String :=
  match d.toField with
  | some a => a
  | none =>
    match d.receiver with
    | some r => if r = "" then "" else r
    | none => ""

/-- The same probe from `verifyAlgorandSignature`, whose final fallback is
`payload.authorization.to` instead of the empty string. -/
def jsToAddrAuth (d : DecodedTxn) (fallback : String) : String :=
  match d.toField with
  | some a => a
  | none =>
    match d.receiver with
    | some r => if r = "" then fallback else r
    | none => fallback

/-- `verifyAlgorandSignature` from `algorand-wallet.ts`: re-decodes the
envelope, checks sender, checks the recipient against the authorization
mirror, and — only when the probed asset id is defined and equal to the
mirrored one — checks the amount against the mirror.  Any internal
exception (decode failure, absent authorization) yields `false`. -/
def verifyAlgorandSignature (env : ChainEnv) (p : AlgorandPaymentPayload)
    (expectedSender : String) : Bool :=
  match env.decode p.signature with
  | .error _ => false
  | .ok txn =>
    match p.authorization with
    | none => false
    | some auth =>
      if txn.sender ≠ expectedSender then false
      else if jsToAddrAuth txn auth.toAddress ≠ auth.toAddress then false
      else
        match jsAssetId txn with
        | some aid =>
          if auth.assetId = some (aid : Int) then
            if toString (jsAmount txn) ≠ auth.amount then false else true
          else true
        | none => true

/-- The cascade of `verifyAlgorandPayment` after the envelope has been
decoded (factored out for reasoning; called exactly once below):
signature check, then recipient, amount, asset id and expiration
comparisons, in that order.  A node status failure is caught by the
surrounding `catch` and reported with the `Verification error:` prefix
and no payer. -/
def verifyDecoded (env : ChainEnv) (ap : AlgorandPaymentPayload)
    (req : PaymentRequirements) (txn : DecodedTxn) : VerifyResponse :=
  if ¬ verifyAlgorandSignature env ap txn.sender then
    { isValid := false, payer := some txn.sender,
      invalidReason := some "Invalid signature" }
  else if jsToAddr txn ≠ req.payTo then
    { isValid := false, payer := some txn.sender,
      invalidReason := some ("Recipient mismatch: expected " ++
        req.payTo ++ ", got " ++ jsToAddr txn) }
  else if toString (jsAmount txn) ≠ req.maxAmountRequired then
    { isValid := false, payer := some txn.sender,
      invalidReason := some ("Amount mismatch: expected " ++
        req.maxAmountRequired ++ ", got " ++ toString (jsAmount txn)) }
  else if parseIntJS req.asset ≠ some (jsAssetId0 txn : Int) then
    { isValid := false, payer := some txn.sender,
      invalidReason := some ("Asset ID mismatch: expected " ++
        optIntToString (parseIntJS req.asset) ++ ", got " ++
        toString (jsAssetId0 txn)) }
  else
    match env.status with
    | .error e =>
      { isValid := false, payer := none,
        invalidReason := some ("Verification error: " ++ e) }
    | .ok currentRound =>
      match jsLastValid txn with
      | some lastValidRound =>
        if lastValidRound < currentRound then
          { isValid := false, payer := some txn.sender,
            invalidReason :=
              some ("Transaction expired: last valid round " ++
                toString lastValidRound ++ ", current round " ++
                toString currentRound) }
        else
          { isValid := true, payer := some txn.sender,
            invalidReason := none }
      | none =>
        { isValid := true, payer := some txn.sender,
          invalidReason := none }

/-- `verifyAlgorandPayment` from `algorand-facilitator.ts`: network guard,
structural presence check, decode, then the `verifyDecoded` cascade.
Exceptions (decode failure, node status failure) are caught and reported
with the `Verification error:` prefix and no payer, mirroring the `catch`
block. -/
def verifyAlgorandPayment (env : ChainEnv) (payload : PaymentPayload)
    (req : PaymentRequirements) : VerifyResponse :=
  if isAlgorandNetwork req.network then
    if payload.payload.signature = "" ∨ payload.payload.authorization = none then
      { isValid := false, payer := none,
        invalidReason := some "Missing signature or authorization" }
    else
      match env.decode payload.payload.signature with
      | .error e =>
        { isValid := false, payer := none,
          invalidReason := some ("Verification error: " ++ e) }
      | .ok txn => verifyDecoded env payload.payload req txn
  else
    { isValid := false, payer := none,
      invalidReason := some ("Network " ++ req.network ++
        " is not an Algorand network") }

/-- The confirmation tail of `settleAlgorandPayment`: wait for
confirmation with a round budget of `ceil(maxTimeoutSeconds / 4.5)`. -/
def settleAfterSubmit (env : ChainEnv) (req : PaymentRequirements)
    (payer : Option String) (txId : String) : SettleResponse :=
  match env.confirm txId (ceilDiv45 req.maxTimeoutSeconds) with
  | .error e =>
    { success := false, transaction := none, network := req.network,
      payer := payer,
      errorReason := some
        ("Transaction submission succeeded but confirmation failed: " ++ e) }
  | .ok _ =>
    { success := true, transaction := some txId, network := req.network,
      payer := payer, errorReason := none }

/-- `settleAlgorandPayment` from `algorand-facilitator.ts`: network guard;
re-run verification and fail with the prefixed reason if invalid; submit
the raw envelope; a submission error whose message contains
`already in ledger` recovers the transaction id from the payload, any
other submission error is rethrown into the outer catch. -/
def settleAlgorandPayment (env : ChainEnv) (payload : PaymentPayload)
    (req : PaymentRequirements) : SettleResponse :=
  if isAlgorandNetwork req.network then
    if (verifyAlgorandPayment env payload req).isValid = false then
      { success := false, transaction := none, network := req.network,
        payer := (verifyAlgorandPayment env payload req).payer,
        errorReason := some ("Verification failed: " ++
          (verifyAlgorandPayment env payload req).invalidReason.getD
            "undefined") }
    else
      match env.send payload.payload.signature with
      | .ok txId =>
        settleAfterSubmit env req (verifyAlgorandPayment env payload req).payer
          txId
      | .error e =>
        if containsSub e "already in ledger" then
          settleAfterSubmit env req
            (verifyAlgorandPayment env payload req).payer
            payload.payload.txnId
        else
          { success := false, transaction := none, network := req.network,
            payer := none,
            errorReason := some ("Settlement error: " ++ e) }
  else
    { success := false, transaction := none, network := req.network,
      payer := none,
      errorReason := some ("Network " ++ req.network ++
        " is not an Algorand network") }

/-- `processAlgorandPayment` from `algorand-wallet.ts`: ceiling check
against `maxValue` (a `NaN` required amount never exceeds), parse the
asset index, build the authorization mirror (with
`validRounds = ceil(maxTimeoutSeconds / 4.5)`), construct the
asset-transfer transaction with the suggested parameters **unchanged**,
sign it and wrap the payload.  `Except.error` carries the message of the
corresponding thrown exception (`algosdk` validates that the amount and
asset index are non-negative integers). -/
def exceedsMax (maxValue required : Option Int) : Bool :=
  match maxValue, required with
  | some mv, some n => n > mv
  | _, _ => false

/-- `note: requirements.description ? encode(...) : undefined`. -/
def paymentNote (req : PaymentRequirements) : Option String :=
  if req.description = "" then none else some req.description

/-- The authorization mirror built by `processAlgorandPayment`. -/
def paymentAuthorization (req : PaymentRequirements)
    (account : AlgorandAccount) : AlgorandAuthorization :=
  { fromAddress := account.address, toAddress := req.payTo,
    amount := req.maxAmountRequired,
    assetId := parseIntJS req.asset,
    validRounds := ceilDiv45 req.maxTimeoutSeconds,
    note := some req.description }

/-- The transaction `processAlgorandPayment` constructs: the suggested
parameters are passed through unchanged. -/
def paymentTxn (env : ChainEnv) (req : PaymentRequirements)
    (account : AlgorandAccount) (amt aid : Nat) : Txn :=
  mkAssetTransferTxn account.address req.payTo amt aid
    env.suggestedParams (paymentNote req)

/-- The payload `processAlgorandPayment` returns on success. -/
def mkProcessedPayload (env : ChainEnv) (req : PaymentRequirements)
    (account : AlgorandAccount) (amt aid : Nat) : PaymentPayload :=
  { x402Version := 1, scheme := req.scheme, network := req.network,
    payload := { signature := env.signTxn (paymentTxn env req account amt aid),
                 authorization := some (paymentAuthorization req account),
                 txnId := env.txID (paymentTxn env req account amt aid) } }

def processAlgorandPayment (env : ChainEnv) (req : PaymentRequirements)
    (account : AlgorandAccount) (maxValue : Option Int) :
    Except String PaymentPayload :=
  if isAlgorandNetwork req.network then
    if exceedsMax maxValue (parseIntJS req.maxAmountRequired) then
      .error ("Payment amount " ++
        optIntToString (parseIntJS req.maxAmountRequired) ++
        " exceeds max value " ++ optIntToString maxValue)
    else
      match bigIntJS req.maxAmountRequired with
      | none =>
        .error ("Cannot convert " ++ req.maxAmountRequired ++ " to a BigInt")
      | some amt =>
        if amt < 0 then .error "Amount must be a non-negative integer"
        else
          match parseIntJS req.asset with
          | none => .error "Asset index must be a safe integer"
          | some aid =>
            if aid < 0 then .error "Asset index must be a safe integer"
            else .ok (mkProcessedPayload env req account amt.toNat aid.toNat)
  else
    .error ("Network " ++ req.network ++ " is not an Algorand network")

/-- The transaction `AlgorandLocalWallet.signPayment` constructs: the
suggested parameters are overridden with
`lastRound = firstRound + ceil(maxTimeoutSeconds / 4.5)`. -/
def walletTxn (env : ChainEnv) (paymentOption : PaymentRequirements)
    (account : AlgorandAccount) (amt aid : Nat) : Txn :=
  mkAssetTransferTxn account.address paymentOption.payTo amt aid
    { env.suggestedParams with
        lastRound := env.suggestedParams.firstRound +
          ceilDiv45 paymentOption.maxTimeoutSeconds }
    (paymentNote paymentOption)

/-- The payload `AlgorandLocalWallet.signPayment` returns on success. -/
def mkWalletPayload (env : ChainEnv) (paymentOption : PaymentRequirements)
    (account : AlgorandAccount) (amt aid : Int) : PaymentPayload :=
  { x402Version := 1, scheme := paymentOption.scheme,
    network := paymentOption.network,
    payload :=
      { signature := env.signTxn (walletTxn env paymentOption account
          amt.toNat aid.toNat),
        authorization :=
          some { fromAddress := account.address,
                 toAddress := paymentOption.payTo,
                 amount := toString amt,
                 assetId := some aid,
                 validRounds := ceilDiv45 paymentOption.maxTimeoutSeconds,
                 note := some paymentOption.description },
        txnId := env.txID (walletTxn env paymentOption account
          amt.toNat aid.toNat) } }

/-- `AlgorandLocalWallet.signPayment` from the client agent wallet: takes
the first offered requirement, ensures the asset opt-in, computes
`validRounds = ceil(maxTimeoutSeconds / 4.5)` and constructs the
transaction with `lastRound` **overridden** to
`suggestedParams.firstRound + validRounds`. -/
def signPayment (env : ChainEnv) (accepts : List PaymentRequirements)
    (account : AlgorandAccount) : Except String PaymentPayload :=
  match accepts with
  | [] => .error "Cannot read properties of undefined"
  | paymentOption :: _ =>
    if isAlgorandNetwork paymentOption.network then
      match parseIntJS paymentOption.asset,
            bigIntJS paymentOption.maxAmountRequired with
      | _, none =>
        .error ("Cannot convert " ++ paymentOption.maxAmountRequired ++
          " to a BigInt")
      | none, some _ =>
        .error "Failed to opt into ASA NaN. Payment cannot proceed."
      | some aid, some amt =>
        if amt < 0 then .error "Amount must be a non-negative integer"
        else if aid < 0 ∨ ¬ env.ensureOptIn aid.toNat then
          .error ("Failed to opt into ASA " ++ toString aid ++
            ". Payment cannot proceed.")
        else .ok (mkWalletPayload env paymentOption account amt aid)
    else
      .error ("Network " ++ paymentOption.network ++
        " is not an Algorand network")

/-- `Price` from `types/config.ts`: a currency string, a number, or a
`TokenAmount` (`value`, `asset`, `network`). -/
inductive Price where
  | str : String → Price
  | num : JSNumber → Price
  | token : String → String → String → Price
deriving DecidableEq, Repr

/-- The static `USDC_ADDRESSES` table inside
`processPriceToAtomicAmount` — EVM networks only. -/
def USDC_ADDRESSES (network : String) : Option String :=
  if network = "base" then
    some "0x833589fCD6eDb6E08f4c7C32D4f71b54bdA02913"
  else if network = "base-sepolia" then
    some "0x036CbD53842c5426634e7929541eC2318f3dCF7e"
  else if network = "ethereum" then
    some "0xA0b86991c6218b36c1d19D4a2e9Eb0cE3606eB48"
  else if network = "polygon" then
    some "0x2791Bca1f2de4661ED88A30C99A7a9449Aa84174"
  else none

/-- Result record of `processPriceToAtomicAmount`. -/
structure AtomicAmountResult where
  maxAmountRequired : String
  assetAddress : String
  eip712Domain : Option Eip712Domain
deriving DecidableEq, Repr

/-- `price.startsWith("$") ? price.slice(1) : price`. -/
def stripDollar (s : String) : String :=
  if strStarts s "$" then String.mk (s.toList.drop 1) else s

/-- `Math.floor(x * 1_000_000)` on an exact decimal (floor division). -/
def floorTimes1e6 (x : JSNumber) : Int :=
  (x.mant * 1000000).fdiv ((10 : Int) ^ x.exp10)

/-- `Math.floor(x * 1_000_000).toString()` on a possibly-`NaN` number. -/
def atomicAmountString (x : Option JSNumber) : String :=
  optIntToString (x.map floorTimes1e6)

/-- `processPriceToAtomicAmount` from `merchant.ts`: strings and numbers
are converted with `floor(value * 10^6)` and looked up in the EVM-only
USDC table with the `base-sepolia` address as fallback; token amounts
pass through unchanged. -/
def processPriceToAtomicAmount (price : Price) (network : String) :
    AtomicAmountResult :=
  match price with
  | .str s =>
    { maxAmountRequired := atomicAmountString (parseFloatJS (stripDollar s)),
      assetAddress := (USDC_ADDRESSES network).getD
        "0x036CbD53842c5426634e7929541eC2318f3dCF7e",
      eip712Domain := some { name := "USDC", version := "2" } }
  | .num q =>
    { maxAmountRequired := atomicAmountString (some q),
      assetAddress := (USDC_ADDRESSES network).getD
        "0x036CbD53842c5426634e7929541eC2318f3dCF7e",
      eip712Domain := some { name := "USDC", version := "2" } }
  | .token value asset _ =>
    { maxAmountRequired := value, assetAddress := asset,
      eip712Domain := none }

/-- `CreatePaymentRequirementsOptions` from `merchant.ts` (optional
fields default inside `createPaymentRequirements`). -/
structure CreatePaymentRequirementsOptions where
  price : Price
  payToAddress : String
  resource : String
  network : Option String := none
  description : Option String := none
  mimeType : Option String := none
  scheme : Option String := none
  maxTimeoutSeconds : Option Nat := none
  extra : Option Eip712Domain := none
deriving DecidableEq, Repr

/-- `createPaymentRequirements` from `merchant.ts`: applies the defaults,
converts the price and assembles the requirements record.  The function
has no failure path. -/
def createPaymentRequirements (options : CreatePaymentRequirementsOptions) :
    PaymentRequirements :=
  let network := options.network.getD "base"
  let r := processPriceToAtomicAmount options.price network
  { scheme := options.scheme.getD "exact",
    network := network,
    asset := r.assetAddress,
    payTo := options.payToAddress,
    maxAmountRequired := r.maxAmountRequired,
    resource := options.resource,
    description := options.description.getD "",
    mimeType := options.mimeType.getD "application/json",
    maxTimeoutSeconds := options.maxTimeoutSeconds.getD 600,
    extra := match options.extra with
      | some x => some x
      | none => r.eip712Domain }

/-! ### Helper lemmas -/

theorem jsAmount_toDecoded (t : Txn) : jsAmount (toDecoded t) = t.amount := by
  by_cases h : t.amount = 0 <;> simp [jsAmount, toDecoded, jsOrNat, h]

theorem jsAssetId0_toDecoded (t : Txn) :
    jsAssetId0 (toDecoded t) = t.assetIndex := by
  by_cases h : t.assetIndex = 0 <;> simp [jsAssetId0, toDecoded, jsOrNat, h]

theorem jsAssetId_toDecoded (t : Txn) :
    jsAssetId (toDecoded t) =
      if t.assetIndex = 0 then none else some t.assetIndex := by
  by_cases h : t.assetIndex = 0 <;> simp [jsAssetId, toDecoded, jsOrNat, h]

theorem jsLastValid_toDecoded (t : Txn) :
    jsLastValid (toDecoded t) =
      if t.lastValid = 0 then none else some t.lastValid := by
  by_cases h : t.lastValid = 0 <;> simp [jsLastValid, toDecoded, jsOrNat, h]

theorem jsToAddr_toDecoded (t : Txn) : jsToAddr (toDecoded t) = t.receiver := by
  by_cases h : t.receiver = "" <;> simp [jsToAddr, toDecoded, h]

theorem jsToAddrAuth_toDecoded (t : Txn) (fb : String) :
    jsToAddrAuth (toDecoded t) fb =
      if t.receiver = "" then fb else t.receiver := by
  by_cases h : t.receiver = "" <;> simp [jsToAddrAuth, toDecoded, h]

/-- Under the structural preconditions, `verifyAlgorandPayment` reduces
to the post-decode cascade. -/
theorem verify_eq_decoded {env : ChainEnv} {p : PaymentPayload}
    {req : PaymentRequirements} {txn : DecodedTxn}
    (halg : isAlgorandNetwork req.network = true)
    (hsig : p.payload.signature ≠ "")
    (hauth : p.payload.authorization ≠ none)
    (hdec : env.decode p.payload.signature = .ok txn) :
    verifyAlgorandPayment env p req = verifyDecoded env p.payload req txn := by
  unfold verifyAlgorandPayment
  simp only [halg, if_true, hdec]
  rw [if_neg]
  simp [hsig, hauth]

/-- `verifyAlgorandPayment` never consults the submission or confirmation
parts of the environment. -/
theorem verify_send_confirm (env : ChainEnv)
    (s : String → Except String String)
    (c : String → Nat → Except String Unit)
    (p : PaymentPayload) (req : PaymentRequirements) :
    verifyAlgorandPayment { env with send := s, confirm := c } p req
      = verifyAlgorandPayment env p req := rfl

theorem usdc_of_algorand {n : String} (h : isAlgorandNetwork n = true) :
    USDC_ADDRESSES n = none := by
  unfold USDC_ADDRESSES
  split
  · rename_i hn; subst hn; exact absurd h (by decide)
  split
  · rename_i hn; subst hn; exact absurd h (by decide)
  split
  · rename_i hn; subst hn; exact absurd h (by decide)
  split
  · rename_i hn; subst hn; exact absurd h (by decide)
  rfl

/-! ### Concrete fixtures used by witnesses and counterexamples -/

/-- A well-formed Algorand-testnet requirement (USDC testnet ASA). -/
def algoReq : PaymentRequirements :=
  { scheme := "exact", network := "algorand-testnet", asset := "10458941",
    payTo := "MERCH", maxAmountRequired := "10000", resource := "product",
    description := "", mimeType := "application/json",
    maxTimeoutSeconds := 600, extra := none }

def algoAcct : AlgorandAccount := { address := "SENDER" }

/-- The transaction `processAlgorandPayment` builds for `algoReq` under
`algoEnv` (suggested rounds 1000–2000). -/
def algoTxn : Txn :=
  mkAssetTransferTxn "SENDER" "MERCH" 10000 10458941
    { firstRound := 1000, lastRound := 2000 } none

/-- A concrete chain environment whose codec recognises the single signed
envelope `"SIGNED0"` as `algoTxn`. -/
def algoEnv : ChainEnv :=
  { suggestedParams := { firstRound := 1000, lastRound := 2000 },
    signTxn := fun _ => "SIGNED0",
    txID := fun _ => "TXID0",
    decode := fun s =>
      if s = "SIGNED0" then .ok (toDecoded algoTxn)
      else .error "failed to decode",
    status := .ok 1500,
    send := fun _ => .ok "TX1",
    confirm := fun _ _ => .ok (),
    ensureOptIn := fun _ => true }

/-- The payload `processAlgorandPayment algoEnv algoReq algoAcct none`
produces. -/
def algoPayload : PaymentPayload :=
  { x402Version := 1, scheme := "exact", network := "algorand-testnet",
    payload := { signature := "SIGNED0",
                 authorization := some
                   { fromAddress := "SENDER", toAddress := "MERCH",
                     amount := "10000", assetId := some 10458941,
                     validRounds := 134, note := some "" },
                 txnId := "TXID0" } }

def algoOptions : CreatePaymentRequirementsOptions :=
  { price := .str "1.00", payToAddress := "MERCH", resource := "product",
    network := some "algorand-testnet" }

def nanOptions : CreatePaymentRequirementsOptions :=
  { price := .str "abc", payToAddress := "M", resource := "p" }

def negOptions : CreatePaymentRequirementsOptions :=
  { price := .num { mant := -1, exp10 := 0 }, payToAddress := "M",
    resource := "p" }

def zeroOptions : CreatePaymentRequirementsOptions :=
  { price := .num { mant := 0, exp10 := 0 }, payToAddress := "M",
    resource := "p" }

/-! ### C1 -/

/-- C1 counterexample: for the Algorand testnet network the builder does
not return the configured USDC ASA index string (10458941); it returns
the base-sepolia **EVM contract address** as fallback, because the static
table has no Algorand entries. -/
theorem c1_counterexample :
    (createPaymentRequirements algoOptions).network = "algorand-testnet"
    ∧ (createPaymentRequirements algoOptions).asset
        = "0x036CbD53842c5426634e7929541eC2318f3dCF7e"
    ∧ strStarts (createPaymentRequirements algoOptions).asset "0x" = true
    ∧ (createPaymentRequirements algoOptions).asset ≠ "10458941"
    ∧ parseIntJS (createPaymentRequirements algoOptions).asset
        ≠ some 10458941 := by
  decide

/-- C1 (amended): for string and number prices, `maxAmountRequired` is
the decimal string of `floor(parseFloat(price) * 1_000_000)`, and `asset`
is the per-network USDC contract address from the static EVM-only table
(`base`, `base-sepolia`, `ethereum`, `polygon`), with the base-sepolia
USDC **EVM contract address** returned as fallback for every other
network — in particular for all Algorand networks, for which no ASA
index is configured. -/
theorem c1_amended (o : CreatePaymentRequirementsOptions) :
    (∀ s, o.price = .str s →
      (createPaymentRequirements o).maxAmountRequired
        = optIntToString ((parseFloatJS (stripDollar s)).map floorTimes1e6))
    ∧ (∀ x, o.price = .num x →
      (createPaymentRequirements o).maxAmountRequired
        = optIntToString (some (floorTimes1e6 x)))
    ∧ ((∃ s, o.price = .str s) ∨ (∃ x, o.price = .num x) →
      (createPaymentRequirements o).asset
        = (USDC_ADDRESSES (o.network.getD "base")).getD
            "0x036CbD53842c5426634e7929541eC2318f3dCF7e"
      ∧ (isAlgorandNetwork (o.network.getD "base") = true →
          (createPaymentRequirements o).asset
            = "0x036CbD53842c5426634e7929541eC2318f3dCF7e")) := by
  refine ⟨?_, ?_, ?_⟩
  · intro s hs
    simp [createPaymentRequirements, processPriceToAtomicAmount, hs,
      atomicAmountString]
  · intro x hx
    simp [createPaymentRequirements, processPriceToAtomicAmount, hx,
      atomicAmountString]
  · intro hp
    have hasset : (createPaymentRequirements o).asset
        = (USDC_ADDRESSES (o.network.getD "base")).getD
            "0x036CbD53842c5426634e7929541eC2318f3dCF7e" := by
      rcases hp with ⟨s, hs⟩ | ⟨x, hx⟩
      · simp [createPaymentRequirements, processPriceToAtomicAmount, hs]
      · simp [createPaymentRequirements, processPriceToAtomicAmount, hx]
    refine ⟨hasset, fun halg => ?_⟩
    rw [hasset, usdc_of_algorand halg]
    rfl

/-- Witness for C1 (amended) at the concrete Algorand-testnet options. -/
theorem c1_witness :
    (createPaymentRequirements algoOptions).maxAmountRequired
      = optIntToString ((parseFloatJS (stripDollar "1.00")).map floorTimes1e6)
    ∧ (createPaymentRequirements algoOptions).asset
      = "0x036CbD53842c5426634e7929541eC2318f3dCF7e" :=
  ⟨(c1_amended algoOptions).1 "1.00" rfl,
   ((c1_amended algoOptions).2.2 (Or.inl ⟨"1.00", rfl⟩)).2 (by decide)⟩

/-! ### C8 -/

/-- C8 counterexample: a non-numeric price yields a requirements record
with `maxAmountRequired = "NaN"`, a negative price yields a negative
amount string — `createPaymentRequirements` never fails with an
`InvalidPrice` error (a zero price does yield `"0"` as the claim says). -/
theorem c8_counterexample :
    (createPaymentRequirements nanOptions).maxAmountRequired = "NaN"
    ∧ (createPaymentRequirements negOptions).maxAmountRequired = "-1000000"
    ∧ (createPaymentRequirements zeroOptions).maxAmountRequired = "0" := by
  decide

/-- C8 (amended): `createPaymentRequirements` has no failure path.  A
non-numeric string price produces a record with
`maxAmountRequired = "NaN"`; a negative price produces the (negative)
floored amount string; a zero price produces `"0"`. -/
theorem c8_amended (o : CreatePaymentRequirementsOptions) (s : String)
    (x : JSNumber) :
    (o.price = .str s → parseFloatJS (stripDollar s) = none →
      (createPaymentRequirements o).maxAmountRequired = "NaN")
    ∧ (o.price = .num x → x.mant < 0 →
      (createPaymentRequirements o).maxAmountRequired
          = toString (floorTimes1e6 x)
      ∧ floorTimes1e6 x < 0)
    ∧ (o.price = .num x → x.mant = 0 →
      (createPaymentRequirements o).maxAmountRequired = "0") := by
  refine ⟨?_, ?_, ?_⟩
  · intro hs hnan
    simp [createPaymentRequirements, processPriceToAtomicAmount, hs, hnan,
      atomicAmountString, optIntToString]
  · intro hx hneg
    constructor
    · simp [createPaymentRequirements, processPriceToAtomicAmount, hx,
        atomicAmountString, optIntToString]
    · have hb : (0 : Int) < 10 ^ x.exp10 := pow_pos (by norm_num) _
      have ha : x.mant * 1000000 < 0 :=
        mul_neg_of_neg_of_pos hneg (by norm_num)
      unfold floorTimes1e6
      rw [Int.fdiv_eq_ediv _ hb.le]
      exact Int.ediv_neg' ha hb
  · intro hx h0
    have : floorTimes1e6 x = 0 := by
      unfold floorTimes1e6
      rw [h0]
      simp
    simp [createPaymentRequirements, processPriceToAtomicAmount, hx,
      atomicAmountString, optIntToString, this]
    decide

/-- Witness for C8 (amended) at the concrete non-numeric and negative
prices. -/
theorem c8_witness :
    (createPaymentRequirements nanOptions).maxAmountRequired = "NaN"
    ∧ ((createPaymentRequirements negOptions).maxAmountRequired
         = toString (floorTimes1e6 { mant := -1, exp10 := 0 })
       ∧ floorTimes1e6 { mant := -1, exp10 := 0 } < 0)
    ∧ (createPaymentRequirements zeroOptions).maxAmountRequired = "0" :=
  ⟨(c8_amended nanOptions "abc" { mant := -1, exp10 := 0 }).1 rfl (by decide),
   (c8_amended negOptions "abc" { mant := -1, exp10 := 0 }).2.1 rfl
     (by decide),
   (c8_amended zeroOptions "abc" { mant := 0, exp10 := 0 }).2.2 rfl rfl⟩

/-! ### C9 -/

/-- C9: `verifyAlgorandPayment` is total (it is a Lean function into
`VerifyResponse`): every invalid outcome carries an `invalidReason`, and
an internal decoding exception is caught and converted into
`isValid:false` with the reason prefixed `Verification error:` and no
payer. -/
theorem c9_total (env : ChainEnv) (p : PaymentPayload)
    (req : PaymentRequirements) :
    ((verifyAlgorandPayment env p req).isValid = false →
      (verifyAlgorandPayment env p req).invalidReason ≠ none)
    ∧ (∀ e, isAlgorandNetwork req.network = true →
        p.payload.signature ≠ "" → p.payload.authorization ≠ none →
        env.decode p.payload.signature = .error e →
        verifyAlgorandPayment env p req =
          { isValid := false, payer := none,
            invalidReason := some ("Verification error: " ++ e) }) := by
  constructor
  · unfold verifyAlgorandPayment verifyDecoded
    repeat' split
    all_goals simp
  · intro e halg hsig hauth hdec
    unfold verifyAlgorandPayment
    simp only [halg, if_true, hdec]
    rw [if_neg]
    simp [hsig, hauth]

/-- Witness for C9 at a malformed payload whose envelope fails to
decode. -/
theorem c9_witness :
    verifyAlgorandPayment algoEnv
      { algoPayload with
          payload := { algoPayload.payload with signature := "garbage" } }
      algoReq =
      { isValid := false, payer := none,
        invalidReason := some "Verification error: failed to decode" } :=
  (c9_total algoEnv
      { algoPayload with
          payload := { algoPayload.payload with signature := "garbage" } }
      algoReq).2 "failed to decode" (by decide) (by decide) (by decide) rfl

/-! ### C4 -/

/-- C4: after the structural stage (presence, decode, signature check),
`verifyAlgorandPayment` applies the recipient, amount, asset-id and
expiration checks in that fixed order, and the reported `invalidReason`
is the one of the earliest failing check, whatever the later checks
would say. -/
theorem c4_check_order (env : ChainEnv) (p : PaymentPayload)
    (req : PaymentRequirements) (txn : DecodedTxn)
    (halg : isAlgorandNetwork req.network = true)
    (hsig : p.payload.signature ≠ "")
    (hauth : p.payload.authorization ≠ none)
    (hdec : env.decode p.payload.signature = .ok txn) :
    (verifyAlgorandSignature env p.payload txn.sender = false →
      verifyAlgorandPayment env p req =
        { isValid := false, payer := some txn.sender,
          invalidReason := some "Invalid signature" })
    ∧ (verifyAlgorandSignature env p.payload txn.sender = true →
       jsToAddr txn ≠ req.payTo →
      verifyAlgorandPayment env p req =
        { isValid := false, payer := some txn.sender,
          invalidReason := some ("Recipient mismatch: expected " ++
            req.payTo ++ ", got " ++ jsToAddr txn) })
    ∧ (verifyAlgorandSignature env p.payload txn.sender = true →
       jsToAddr txn = req.payTo →
       toString (jsAmount txn) ≠ req.maxAmountRequired →
      verifyAlgorandPayment env p req =
        { isValid := false, payer := some txn.sender,
          invalidReason := some ("Amount mismatch: expected " ++
            req.maxAmountRequired ++ ", got " ++ toString (jsAmount txn)) })
    ∧ (verifyAlgorandSignature env p.payload txn.sender = true →
       jsToAddr txn = req.payTo →
       toString (jsAmount txn) = req.maxAmountRequired →
       parseIntJS req.asset ≠ some (jsAssetId0 txn : Int) →
      verifyAlgorandPayment env p req =
        { isValid := false, payer := some txn.sender,
          invalidReason := some ("Asset ID mismatch: expected " ++
            optIntToString (parseIntJS req.asset) ++ ", got " ++
            toString (jsAssetId0 txn)) })
    ∧ (∀ cur lv, verifyAlgorandSignature env p.payload txn.sender = true →
       jsToAddr txn = req.payTo →
       toString (jsAmount txn) = req.maxAmountRequired →
       parseIntJS req.asset = some (jsAssetId0 txn : Int) →
       env.status = .ok cur → jsLastValid txn = some lv → lv < cur →
      verifyAlgorandPayment env p req =
        { isValid := false, payer := some txn.sender,
          invalidReason := some ("Transaction expired: last valid round " ++
            toString lv ++ ", current round " ++ toString cur) }) := by
  rw [verify_eq_decoded halg hsig hauth hdec]
  refine ⟨?_, ?_, ?_, ?_, ?_⟩
  · intro hfail
    unfold verifyDecoded
    rw [if_pos]
    simp [hfail]
  · intro hok hne
    unfold verifyDecoded
    rw [if_neg (by simp [hok]), if_pos hne]
  · intro hok hto hne
    unfold verifyDecoded
    rw [if_neg (by simp [hok]), if_neg (by simp [hto]), if_pos hne]
  · intro hok hto hamt hne
    unfold verifyDecoded
    rw [if_neg (by simp [hok]), if_neg (by simp [hto]),
      if_neg (by simp [hamt]), if_pos hne]
  · intro cur lv hok hto hamt hassets hst hlv hexp
    unfold verifyDecoded
    rw [if_neg (by simp [hok]), if_neg (by simp [hto]),
      if_neg (by simp [hamt]), if_neg (by simp [hassets]), hst]
    simp only [hlv]
    rw [if_pos hexp]

/-- Witness for C4 at a concrete recipient mismatch (second leg). -/
theorem c4_witness :
    verifyAlgorandPayment algoEnv algoPayload { algoReq with payTo := "OTHER" }
      = { isValid := false, payer := some "SENDER",
          invalidReason := some ("Recipient mismatch: expected " ++
            "OTHER" ++ ", got " ++ jsToAddr (toDecoded algoTxn)) } :=
  (c4_check_order algoEnv algoPayload { algoReq with payTo := "OTHER" }
      (toDecoded algoTxn) (by decide) (by decide) (by decide)
      rfl).2.1 (by decide) (by decide)

/-! ### C10 -/

/-- Fixture for the C10 counterexample: a decoded envelope whose asset
index field holds `0`, so the JS probe `txn.assetIndex || txn.xaid`
yields `undefined` and the amount/mirror consistency check is skipped. -/
def zeroAssetTxnD : DecodedTxn :=
  { sender := "S", toField := none, receiver := some "M",
    assetAmount := some 5, amountField := none, aamt := none,
    assetIndex := some 0, xaid := none,
    lastRound := none, lastValid := some 1000, lv := none }

def zeroAssetAuth : AlgorandAuthorization :=
  { fromAddress := "S", toAddress := "M", amount := "7",
    assetId := some 0, validRounds := 10, note := none }

def zeroAssetPayload : PaymentPayload :=
  { x402Version := 1, scheme := "exact", network := "algorand-testnet",
    payload := { signature := "SIGZ",
                 authorization := some zeroAssetAuth, txnId := "TXZ" } }

def zeroAssetReq : PaymentRequirements :=
  { scheme := "exact", network := "algorand-testnet", asset := "0",
    payTo := "M", maxAmountRequired := "5", resource := "p",
    description := "", mimeType := "application/json",
    maxTimeoutSeconds := 600, extra := none }

def zeroAssetEnv : ChainEnv :=
  { suggestedParams := { firstRound := 1, lastRound := 1000 },
    signTxn := fun _ => "SIGZ",
    txID := fun _ => "TXZ",
    decode := fun s =>
      if s = "SIGZ" then .ok zeroAssetTxnD else .error "bad",
    status := .ok 500,
    send := fun _ => .ok "T",
    confirm := fun _ _ => .ok (),
    ensureOptIn := fun _ => true }

/-- C10 counterexample: the decoded amount (`5`) differs from the
authorization mirror's amount (`"7"`) while the decoded asset index
(`0`) equals the mirror's `assetId` (`0`), yet verification succeeds,
because the probe `txn.assetIndex || txn.xaid` treats the value `0` as
falsy and the signature check skips the amount comparison. -/
theorem c10_counterexample :
    toString (jsAmount zeroAssetTxnD) = "5"
    ∧ zeroAssetAuth.amount = "7"
    ∧ jsAssetId0 zeroAssetTxnD = 0
    ∧ zeroAssetAuth.assetId = some 0
    ∧ verifyAlgorandPayment zeroAssetEnv zeroAssetPayload zeroAssetReq
        = { isValid := true, payer := some "S", invalidReason := none } := by
  decide

/-- C10 (amended): if the decoded envelope carries an explicit receiver
that differs from `authorization.to`, or its amount differs from
`authorization.amount` while the probed asset id
(`txn.assetIndex || txn.xaid`) is **defined** and equals
`authorization.assetId`, then verification returns `isValid:false` with
`invalidReason = "Invalid signature"` and the payer populated, whatever
the requirements say. -/
theorem c10_amended (env : ChainEnv) (p : PaymentPayload)
    (req : PaymentRequirements) (txn : DecodedTxn)
    (auth : AlgorandAuthorization)
    (halg : isAlgorandNetwork req.network = true)
    (hsig : p.payload.signature ≠ "")
    (hauth : p.payload.authorization = some auth)
    (hdec : env.decode p.payload.signature = .ok txn) :
    (jsToAddrAuth txn auth.toAddress ≠ auth.toAddress →
      verifyAlgorandPayment env p req =
        { isValid := false, payer := some txn.sender,
          invalidReason := some "Invalid signature" })
    ∧ (∀ aid, jsAssetId txn = some aid → auth.assetId = some (aid : Int) →
        toString (jsAmount txn) ≠ auth.amount →
      verifyAlgorandPayment env p req =
        { isValid := false, payer := some txn.sender,
          invalidReason := some "Invalid signature" }) := by
  have hbase := verify_eq_decoded halg hsig (by simp [hauth]) hdec
  constructor
  · intro hne
    rw [hbase]
    unfold verifyDecoded
    rw [if_pos]
    unfold verifyAlgorandSignature
    rw [hdec, hauth]
    simp [hne]
  · intro aid haid hmirror hneamt
    rw [hbase]
    unfold verifyDecoded
    rw [if_pos]
    unfold verifyAlgorandSignature
    rw [hdec, hauth]
    by_cases hto : jsToAddrAuth txn auth.toAddress = auth.toAddress
    · simp [hto, haid, hmirror, hneamt]
    · simp [hto]

/-- Fixtures for the C10 witness: a nonzero asset id equal to the mirror
with a mismatched amount. -/
def mismatchTxnD : DecodedTxn :=
  { sender := "S", toField := none, receiver := some "M",
    assetAmount := some 5, amountField := none, aamt := none,
    assetIndex := some 9, xaid := none,
    lastRound := none, lastValid := some 1000, lv := none }

def mismatchAuth : AlgorandAuthorization :=
  { fromAddress := "S", toAddress := "M", amount := "7",
    assetId := some 9, validRounds := 10, note := none }

def mismatchPayload : PaymentPayload :=
  { x402Version := 1, scheme := "exact", network := "algorand-testnet",
    payload := { signature := "SIGM",
                 authorization := some mismatchAuth, txnId := "TXM" } }

def mismatchEnv : ChainEnv :=
  { zeroAssetEnv with
      decode := fun s =>
        if s = "SIGM" then .ok mismatchTxnD else .error "bad" }

/-- Witness for C10 (amended) at a concrete amount/mirror mismatch with a
defined, matching asset id. -/
theorem c10_witness :
    verifyAlgorandPayment mismatchEnv mismatchPayload zeroAssetReq =
      { isValid := false, payer := some "S",
        invalidReason := some "Invalid signature" } :=
  (c10_amended mismatchEnv mismatchPayload zeroAssetReq mismatchTxnD
      mismatchAuth (by decide) (by decide) rfl rfl).2 9
    (by decide) (by decide) (by decide)

/-! ### C3 -/

/-- `algoReq` redirected to a non-Algorand network. -/
def evmReq : PaymentRequirements := { algoReq with network := "base" }

/-- C3 counterexample: when the requirements name a non-Algorand network,
verification returns `isValid:false` and settlement returns
`success:false`, but the settlement `errorReason` is the bare network
message, **not** the verification reason behind the
`Verification failed: ` prefix (and `verify` is never re-run: the guard
fires first). -/
theorem c3_counterexample :
    (verifyAlgorandPayment algoEnv algoPayload evmReq).isValid = false
    ∧ (verifyAlgorandPayment algoEnv algoPayload evmReq).invalidReason
        = some "Network base is not an Algorand network"
    ∧ (settleAlgorandPayment algoEnv algoPayload evmReq).success = false
    ∧ (settleAlgorandPayment algoEnv algoPayload evmReq).errorReason
        = some "Network base is not an Algorand network"
    ∧ (settleAlgorandPayment algoEnv algoPayload evmReq).errorReason
        ≠ some ("Verification failed: " ++
            ((verifyAlgorandPayment algoEnv algoPayload
                evmReq).invalidReason.getD "undefined")) := by
  decide

/-- C3 (amended): whenever verification is invalid, settlement fails and
never consults the submission or confirmation parts of the chain
adapter; on an Algorand network the `errorReason` is the verification
reason behind the `Verification failed: ` prefix, while on a
non-Algorand network both functions return the same bare network
message with no prefix. -/
theorem c3_amended (env : ChainEnv)
    (s₁ s₂ : String → Except String String)
    (c₁ c₂ : String → Nat → Except String Unit)
    (p : PaymentPayload) (req : PaymentRequirements)
    (hv : (verifyAlgorandPayment env p req).isValid = false) :
    (settleAlgorandPayment env p req).success = false
    ∧ settleAlgorandPayment { env with send := s₁, confirm := c₁ } p req
        = settleAlgorandPayment { env with send := s₂, confirm := c₂ } p req
    ∧ (isAlgorandNetwork req.network = true →
        settleAlgorandPayment env p req =
          { success := false, transaction := none, network := req.network,
            payer := (verifyAlgorandPayment env p req).payer,
            errorReason := some ("Verification failed: " ++
              (verifyAlgorandPayment env p req).invalidReason.getD
                "undefined") })
    ∧ (isAlgorandNetwork req.network = false →
        settleAlgorandPayment env p req =
          { success := false, transaction := none, network := req.network,
            payer := none,
            errorReason := some ("Network " ++ req.network ++
              " is not an Algorand network") }) := by
  refine ⟨?_, ?_, ?_, ?_⟩
  · unfold settleAlgorandPayment
    cases hb : isAlgorandNetwork req.network <;> simp [hv]
  · unfold settleAlgorandPayment
    simp only [verify_send_confirm]
    cases hb : isAlgorandNetwork req.network <;> simp [hv]
  · intro halg
    unfold settleAlgorandPayment
    simp [halg, hv]
  · intro halg
    unfold settleAlgorandPayment
    simp [halg]

/-- Witness for C3 (amended) at a concrete Algorand-network requirement
the payload does not satisfy. -/
theorem c3_witness :
    (settleAlgorandPayment algoEnv algoPayload
        { algoReq with payTo := "OTHER" }).success = false
    ∧ settleAlgorandPayment algoEnv algoPayload
        { algoReq with payTo := "OTHER" } =
        { success := false, transaction := none,
          network := ({ algoReq with payTo := "OTHER" } :
            PaymentRequirements).network,
          payer := (verifyAlgorandPayment algoEnv algoPayload
            { algoReq with payTo := "OTHER" }).payer,
          errorReason := some ("Verification failed: " ++
            (verifyAlgorandPayment algoEnv algoPayload
              { algoReq with payTo := "OTHER" }).invalidReason.getD
                "undefined") } :=
  ⟨(c3_amended algoEnv algoEnv.send algoEnv.send algoEnv.confirm
      algoEnv.confirm algoPayload { algoReq with payTo := "OTHER" }
      (by decide)).1,
   (c3_amended algoEnv algoEnv.send algoEnv.send algoEnv.confirm
      algoEnv.confirm algoPayload { algoReq with payTo := "OTHER" }
      (by decide)).2.2.1 (by decide)⟩

/-! ### C7 -/

/-- C7: when submission fails with a message containing
`already in ledger`, the settler recovers the transaction id from the
payload's `txnId` field and proceeds on the success path: confirmation
is awaited for that id and the `SettleResponse` reports it. -/
theorem c7_already_in_ledger (env : ChainEnv) (p : PaymentPayload)
    (req : PaymentRequirements) (e : String)
    (halg : isAlgorandNetwork req.network = true)
    (hvalid : (verifyAlgorandPayment env p req).isValid = true)
    (hsend : env.send p.payload.signature = .error e)
    (hledger : containsSub e "already in ledger" = true)
    (hconf : env.confirm p.payload.txnId (ceilDiv45 req.maxTimeoutSeconds)
      = .ok ()) :
    settleAlgorandPayment env p req =
      { success := true, transaction := some p.payload.txnId,
        network := req.network,
        payer := (verifyAlgorandPayment env p req).payer,
        errorReason := none } := by
  unfold settleAlgorandPayment
  simp only [halg, if_true]
  rw [if_neg (by simp [hvalid]), hsend]
  simp only [hledger, if_true]
  unfold settleAfterSubmit
  rw [hconf]

/-- `algoEnv` whose node reports the transaction as already in the
ledger on submission. -/
def ledgerEnv : ChainEnv :=
  { algoEnv with send := fun _ => .error "transaction already in ledger" }

/-- Witness for C7: resubmitting the already-settled payload still
succeeds and reports the payload's own transaction id. -/
theorem c7_witness :
    settleAlgorandPayment ledgerEnv algoPayload algoReq =
      { success := true, transaction := some "TXID0",
        network := "algorand-testnet",
        payer := (verifyAlgorandPayment ledgerEnv algoPayload algoReq).payer,
        errorReason := none } :=
  c7_already_in_ledger ledgerEnv algoPayload algoReq
    "transaction already in ledger" (by decide) (by decide) rfl (by decide)
    rfl

/-! ### Characterization of the two signers -/

theorem processAlgorandPayment_ok {env : ChainEnv} {req : PaymentRequirements}
    {account : AlgorandAccount} {mv : Option Int} {p : PaymentPayload}
    (hok : processAlgorandPayment env req account mv = .ok p) :
    isAlgorandNetwork req.network = true ∧
    ∃ amt aid : Int, bigIntJS req.maxAmountRequired = some amt ∧
      parseIntJS req.asset = some aid ∧ 0 ≤ amt ∧ 0 ≤ aid ∧
      p = mkProcessedPayload env req account amt.toNat aid.toNat := by
  unfold processAlgorandPayment at hok
  by_cases hnet : isAlgorandNetwork req.network = true
  case neg => rw [if_neg hnet] at hok; exact absurd hok (by simp)
  rw [if_pos hnet] at hok
  by_cases hex : exceedsMax mv (parseIntJS req.maxAmountRequired) = true
  case pos => rw [if_pos hex] at hok; exact absurd hok (by simp)
  rw [if_neg hex] at hok
  cases hbig : bigIntJS req.maxAmountRequired with
  | none => rw [hbig] at hok; exact absurd hok (by simp)
  | some amt =>
  rw [hbig] at hok
  dsimp only at hok
  by_cases hneg : amt < 0
  case pos => rw [if_pos hneg] at hok; exact absurd hok (by simp)
  rw [if_neg hneg] at hok
  cases haz : parseIntJS req.asset with
  | none => rw [haz] at hok; exact absurd hok (by simp)
  | some aid =>
  rw [haz] at hok
  dsimp only at hok
  by_cases haneg : aid < 0
  case pos => rw [if_pos haneg] at hok; exact absurd hok (by simp)
  rw [if_neg haneg] at hok
  simp only [Except.ok.injEq] at hok
  exact ⟨hnet, amt, aid, rfl, rfl, by omega, by omega, hok.symm⟩

theorem signPayment_ok {env : ChainEnv} {opt : PaymentRequirements}
    {rest : List PaymentRequirements} {account : AlgorandAccount}
    {p : PaymentPayload}
    (hok : signPayment env (opt :: rest) account = .ok p) :
    isAlgorandNetwork opt.network = true ∧
    ∃ aid amt : Int, parseIntJS opt.asset = some aid ∧
      bigIntJS opt.maxAmountRequired = some amt ∧ 0 ≤ amt ∧ 0 ≤ aid ∧
      p = mkWalletPayload env opt account amt aid := by
  unfold signPayment at hok
  dsimp only at hok
  by_cases hnet : isAlgorandNetwork opt.network = true
  case neg => rw [if_neg hnet] at hok; exact absurd hok (by simp)
  rw [if_pos hnet] at hok
  cases haz : parseIntJS opt.asset with
  | none =>
    cases hbig : bigIntJS opt.maxAmountRequired with
    | none => rw [haz, hbig] at hok; exact absurd hok (by simp)
    | some amt => rw [haz, hbig] at hok; exact absurd hok (by simp)
  | some aid =>
  cases hbig : bigIntJS opt.maxAmountRequired with
  | none => rw [haz, hbig] at hok; exact absurd hok (by simp)
  | some amt =>
  rw [haz, hbig] at hok
  dsimp only at hok
  by_cases hneg : amt < 0
  case pos => rw [if_pos hneg] at hok; exact absurd hok (by simp)
  rw [if_neg hneg] at hok
  by_cases hopt : aid < 0 ∨ ¬ env.ensureOptIn aid.toNat = true
  case pos => rw [if_pos hopt] at hok; exact absurd hok (by simp)
  rw [if_neg hopt] at hok
  simp only [Except.ok.injEq] at hok
  rw [not_or] at hopt
  exact ⟨hnet, aid, amt, rfl, rfl, by omega, by omega, hok.symm⟩

/-- For a payload built by `processAlgorandPayment`, the envelope's
signature check always passes: the decoded fields agree with the
authorization mirror by construction. -/
theorem signature_ok_processed (env : ChainEnv) (req : PaymentRequirements)
    (account : AlgorandAccount) (m a : Nat)
    (hdec : env.decode (env.signTxn (paymentTxn env req account m a))
      = .ok (toDecoded (paymentTxn env req account m a)))
    (hm2 : toString m = req.maxAmountRequired)
    (ha : parseIntJS req.asset = some (a : Int)) :
    verifyAlgorandSignature env (mkProcessedPayload env req account m a).payload
      account.address = true := by
  unfold verifyAlgorandSignature mkProcessedPayload
  dsimp only
  rw [hdec]
  dsimp only
  rw [jsToAddrAuth_toDecoded, jsAssetId_toDecoded, jsAmount_toDecoded]
  by_cases hz : a = 0 <;> by_cases hm0 : m = 0 <;>
    simp [toDecoded, paymentTxn, mkAssetTransferTxn, paymentAuthorization,
      hz, hm0, ha, hm2]
  all_goals rw [← hm2, hm0]

/-- Full evaluation of `verifyAlgorandPayment` on a payload built by
`processAlgorandPayment` for `req`, verified against arbitrary
requirements `req2` on an Algorand network. -/
theorem verify_processed_cascade (env : ChainEnv)
    (req req2 : PaymentRequirements) (account : AlgorandAccount) (m a : Nat)
    (hdec : env.decode (env.signTxn (paymentTxn env req account m a))
      = .ok (toDecoded (paymentTxn env req account m a)))
    (hne : env.signTxn (paymentTxn env req account m a) ≠ "")
    (hnet2 : isAlgorandNetwork req2.network = true)
    (hm2 : toString m = req.maxAmountRequired)
    (ha : parseIntJS req.asset = some (a : Int)) :
    verifyAlgorandPayment env (mkProcessedPayload env req account m a) req2 =
      if req.payTo ≠ req2.payTo then
        { isValid := false, payer := some account.address,
          invalidReason := some ("Recipient mismatch: expected " ++
            req2.payTo ++ ", got " ++ req.payTo) }
      else if toString m ≠ req2.maxAmountRequired then
        { isValid := false, payer := some account.address,
          invalidReason := some ("Amount mismatch: expected " ++
            req2.maxAmountRequired ++ ", got " ++ toString m) }
      else if parseIntJS req2.asset ≠ some (a : Int) then
        { isValid := false, payer := some account.address,
          invalidReason := some ("Asset ID mismatch: expected " ++
            optIntToString (parseIntJS req2.asset) ++ ", got " ++
            toString a) }
      else
        match env.status with
        | .error e =>
          { isValid := false, payer := none,
            invalidReason := some ("Verification error: " ++ e) }
        | .ok cur =>
          match (if env.suggestedParams.lastRound = 0 then none
              else some env.suggestedParams.lastRound) with
          | some lv =>
            if lv < cur then
              { isValid := false, payer := some account.address,
                invalidReason :=
                  some ("Transaction expired: last valid round " ++
                    toString lv ++ ", current round " ++ toString cur) }
            else
              { isValid := true, payer := some account.address,
                invalidReason := none }
          | none =>
            { isValid := true, payer := some account.address,
              invalidReason := none } := by
  have hs := signature_ok_processed env req account m a hdec hm2 ha
  rw [verify_eq_decoded hnet2 hne (by simp [mkProcessedPayload]) hdec]
  unfold verifyDecoded
  rw [if_neg (show ¬ ¬ (verifyAlgorandSignature env
    (mkProcessedPayload env req account m a).payload
    (toDecoded (paymentTxn env req account m a)).sender = true) from
    not_not_intro hs)]
  rw [jsToAddr_toDecoded, jsAmount_toDecoded, jsAssetId0_toDecoded,
    jsLastValid_toDecoded]
  rfl

/-! ### C2 -/

/-- C2: signing with `processAlgorandPayment` and verifying the result
with `verifyAlgorandPayment` against the same requirements yields
`isValid:true` with `payer` equal to the signer's address, provided the
requirement strings are canonical decimal integers, the codec is
faithful, and the chain-reported current round has not passed the signed
transaction's last-valid round. -/
theorem c2_roundtrip (env : ChainEnv) (req : PaymentRequirements)
    (account : AlgorandAccount) (mv : Option Int) (p : PaymentPayload)
    (m a cur : Nat)
    (hok : processAlgorandPayment env req account mv = .ok p)
    (hm1 : bigIntJS req.maxAmountRequired = some (m : Int))
    (hm2 : toString m = req.maxAmountRequired)
    (ha : parseIntJS req.asset = some (a : Int))
    (hcodec : env.decode (env.signTxn (paymentTxn env req account m a))
      = .ok (toDecoded (paymentTxn env req account m a)))
    (hne : env.signTxn (paymentTxn env req account m a) ≠ "")
    (hst : env.status = .ok cur)
    (hcur : cur ≤ env.suggestedParams.lastRound) :
    verifyAlgorandPayment env p req =
      { isValid := true, payer := some account.address,
        invalidReason := none } := by
  obtain ⟨hnet, amt, aid, hbig, haz, h0a, h0i, hp⟩ :=
    processAlgorandPayment_ok hok
  have hamt : (m : Int) = amt := by
    rw [hm1] at hbig; exact Option.some.inj hbig
  have haid : (a : Int) = aid := by
    rw [ha] at haz; exact Option.some.inj haz
  subst hamt
  subst haid
  rw [Int.toNat_ofNat, Int.toNat_ofNat] at hp
  rw [hp,
    verify_processed_cascade env req req account m a hcodec hne
      hnet hm2 ha,
    if_neg (by simp), if_neg (by simp [hm2]), if_neg (by simp [ha]), hst]
  by_cases h0 : env.suggestedParams.lastRound = 0
  · simp [h0]
  · simp only [h0, if_false]
    rw [if_neg (by omega)]

/-- Witness for C2 at the concrete testnet fixture. -/
theorem c2_witness :
    verifyAlgorandPayment algoEnv algoPayload algoReq =
      { isValid := true, payer := some "SENDER", invalidReason := none } :=
  c2_roundtrip algoEnv algoReq algoAcct none algoPayload 10000 10458941 1500
    (by decide) (by decide) (by decide) (by decide)
    (by decide) (by decide) rfl (by decide)

/-! ### C5 -/

/-- C5 counterexample: mutating `asset` to the different string
`"10458941.0"` — which `parseInt` reads as the same integer — leaves
verification `isValid:true`; the tamper property fails for asset
mutations that preserve the parsed integer. -/
theorem c5_counterexample :
    "10458941.0" ≠ algoReq.asset
    ∧ parseIntJS "10458941.0" = parseIntJS algoReq.asset
    ∧ verifyAlgorandPayment algoEnv algoPayload
        { algoReq with asset := "10458941.0" }
        = { isValid := true, payer := some "SENDER",
            invalidReason := none } := by
  decide

/-- C5 (amended): for a payload built by `processAlgorandPayment`,
mutating `payTo` or `maxAmountRequired` to any different string, or
`asset` to a string whose `parseInt` value differs from the original
asset index, flips verification to `isValid:false` with a reason naming
the mutated field and both the expected and the actual value; asset
mutations preserving the parsed integer are not detected. -/
theorem c5_amended (env : ChainEnv) (req : PaymentRequirements)
    (account : AlgorandAccount) (mv : Option Int) (p : PaymentPayload)
    (m a : Nat)
    (hok : processAlgorandPayment env req account mv = .ok p)
    (hm1 : bigIntJS req.maxAmountRequired = some (m : Int))
    (hm2 : toString m = req.maxAmountRequired)
    (ha : parseIntJS req.asset = some (a : Int))
    (hcodec : env.decode (env.signTxn (paymentTxn env req account m a))
      = .ok (toDecoded (paymentTxn env req account m a)))
    (hne : env.signTxn (paymentTxn env req account m a) ≠ "") :
    (∀ payTo2, payTo2 ≠ req.payTo →
      verifyAlgorandPayment env p { req with payTo := payTo2 } =
        { isValid := false, payer := some account.address,
          invalidReason := some ("Recipient mismatch: expected " ++
            payTo2 ++ ", got " ++ req.payTo) })
    ∧ (∀ amt2, amt2 ≠ req.maxAmountRequired →
      verifyAlgorandPayment env p { req with maxAmountRequired := amt2 } =
        { isValid := false, payer := some account.address,
          invalidReason := some ("Amount mismatch: expected " ++
            amt2 ++ ", got " ++ toString m) })
    ∧ (∀ asset2, parseIntJS asset2 ≠ some (a : Int) →
      verifyAlgorandPayment env p { req with asset := asset2 } =
        { isValid := false, payer := some account.address,
          invalidReason := some ("Asset ID mismatch: expected " ++
            optIntToString (parseIntJS asset2) ++ ", got " ++
            toString a) }) := by
  obtain ⟨hnet, amt, aid, hbig, haz, h0a, h0i, hp⟩ :=
    processAlgorandPayment_ok hok
  have hamt : (m : Int) = amt := by
    rw [hm1] at hbig; exact Option.some.inj hbig
  have haid : (a : Int) = aid := by
    rw [ha] at haz; exact Option.some.inj haz
  subst hamt
  subst haid
  rw [Int.toNat_ofNat, Int.toNat_ofNat] at hp
  subst hp
  refine ⟨?_, ?_, ?_⟩
  · intro payTo2 hdiff
    rw [verify_processed_cascade env req { req with payTo := payTo2 }
      account m a hcodec hne hnet hm2 ha]
    rw [if_pos (Ne.symm hdiff)]
  · intro amt2 hdiff
    rw [verify_processed_cascade env req
      { req with maxAmountRequired := amt2 }
      account m a hcodec hne hnet hm2 ha]
    rw [if_neg (by simp), if_pos
      (show toString m ≠ amt2 from fun h => hdiff ((hm2.symm.trans h).symm))]
  · intro asset2 hdiff
    rw [verify_processed_cascade env req { req with asset := asset2 }
      account m a hcodec hne hnet hm2 ha]
    rw [if_neg (by simp), if_neg (by simp [hm2]), if_pos hdiff]

/-- Witness for C5 (amended): concrete mutations of each of the three
fields are detected with the corresponding reasons. -/
theorem c5_witness :
    verifyAlgorandPayment algoEnv algoPayload
      { algoReq with payTo := "EVE" } =
      { isValid := false, payer := some "SENDER",
        invalidReason := some ("Recipient mismatch: expected " ++
          "EVE" ++ ", got " ++ algoReq.payTo) }
    ∧ verifyAlgorandPayment algoEnv algoPayload
      { algoReq with maxAmountRequired := "99999" } =
      { isValid := false, payer := some "SENDER",
        invalidReason := some ("Amount mismatch: expected " ++
          "99999" ++ ", got " ++ toString 10000) }
    ∧ verifyAlgorandPayment algoEnv algoPayload
      { algoReq with asset := "31566704" } =
      { isValid := false, payer := some "SENDER",
        invalidReason := some ("Asset ID mismatch: expected " ++
          optIntToString (parseIntJS "31566704") ++ ", got " ++
          toString 10458941) } :=
  ⟨(c5_amended algoEnv algoReq algoAcct none algoPayload 10000 10458941
      (by decide) (by decide) (by decide) (by decide) (by decide)
      (by decide)).1 "EVE" (by decide),
   (c5_amended algoEnv algoReq algoAcct none algoPayload 10000 10458941
      (by decide) (by decide) (by decide) (by decide) (by decide)
      (by decide)).2.1 "99999" (by decide),
   (c5_amended algoEnv algoReq algoAcct none algoPayload 10000 10458941
      (by decide) (by decide) (by decide) (by decide) (by decide)
      (by decide)).2.2 "31566704" (by decide)⟩

/-! ### C6 -/

/-- C6 counterexample: under suggested rounds 1000–2000 and
`maxTimeoutSeconds = 600` (`validRounds = 134`), the transaction signed
by `processAlgorandPayment` carries last-valid round `2000` — the
suggested parameters' own value — not `1000 + 134`. -/
theorem c6_counterexample :
    processAlgorandPayment algoEnv algoReq algoAcct none = .ok algoPayload
    ∧ algoEnv.decode algoPayload.payload.signature = .ok (toDecoded algoTxn)
    ∧ jsLastValid (toDecoded algoTxn) = some 2000
    ∧ ceilDiv45 algoReq.maxTimeoutSeconds = 134
    ∧ (2000 : Nat) ≠ algoEnv.suggestedParams.firstRound +
        ceilDiv45 algoReq.maxTimeoutSeconds := by
  decide

/-- C6 (amended): both Algorand signers compute
`validRounds = ceil(maxTimeoutSeconds / 4.5)` and record it in the
authorization mirror, but only `AlgorandLocalWallet.signPayment` signs a
transaction with last-valid round `firstValid + validRounds`;
`processAlgorandPayment` signs with the suggested parameters' own
last-valid round, unchanged. -/
theorem c6_amended (env : ChainEnv) :
    (∀ (req : PaymentRequirements) (account : AlgorandAccount)
        (mv : Option Int) (p : PaymentPayload),
      processAlgorandPayment env req account mv = .ok p →
      (∃ auth, p.payload.authorization = some auth ∧
        auth.validRounds = ceilDiv45 req.maxTimeoutSeconds) ∧
      ∃ t : Txn, p.payload.signature = env.signTxn t ∧
        t.firstValid = env.suggestedParams.firstRound ∧
        t.lastValid = env.suggestedParams.lastRound)
    ∧ (∀ (opt : PaymentRequirements) (rest : List PaymentRequirements)
        (account : AlgorandAccount) (p : PaymentPayload),
      signPayment env (opt :: rest) account = .ok p →
      (∃ auth, p.payload.authorization = some auth ∧
        auth.validRounds = ceilDiv45 opt.maxTimeoutSeconds) ∧
      ∃ t : Txn, p.payload.signature = env.signTxn t ∧
        t.firstValid = env.suggestedParams.firstRound ∧
        t.lastValid = env.suggestedParams.firstRound +
          ceilDiv45 opt.maxTimeoutSeconds) := by
  constructor
  · intro req account mv p hok
    obtain ⟨hnet, amt, aid, hbig, haz, h0a, h0i, hp⟩ :=
      processAlgorandPayment_ok hok
    subst hp
    exact ⟨⟨paymentAuthorization req account, rfl, rfl⟩,
      ⟨paymentTxn env req account amt.toNat aid.toNat, rfl, rfl, rfl⟩⟩
  · intro opt rest account p hok
    obtain ⟨hnet, aid, amt, haz, hbig, h0a, h0i, hp⟩ := signPayment_ok hok
    subst hp
    exact ⟨⟨_, rfl, rfl⟩,
      ⟨walletTxn env opt account amt.toNat aid.toNat, rfl, rfl, rfl⟩⟩

/-- Witness for C6 (amended) at the concrete wallet signer fixture. -/
theorem c6_witness :
    (∃ auth, (mkWalletPayload algoEnv algoReq algoAcct 10000
        10458941).payload.authorization = some auth ∧
      auth.validRounds = ceilDiv45 algoReq.maxTimeoutSeconds)
    ∧ ∃ t : Txn, (mkWalletPayload algoEnv algoReq algoAcct 10000
        10458941).payload.signature = algoEnv.signTxn t ∧
      t.firstValid = algoEnv.suggestedParams.firstRound ∧
      t.lastValid = algoEnv.suggestedParams.firstRound +
        ceilDiv45 algoReq.maxTimeoutSeconds :=
  (c6_amended algoEnv).2 algoReq [] algoAcct
    (mkWalletPayload algoEnv algoReq algoAcct 10000 10458941) (by decide)

end X402
